import Mathlib

/-
Verification of the ClockBlocked alarm scheduling and challenge-lifecycle
engine, as a shallow embedding of the TypeScript sources:
  services/alarmService.ts, services/notificationService.ts,
  components/AlarmVerificationModal (GenericModal.tsx),
  store/useStore.ts, app/_layout.tsx.

Dates are modelled as integer milliseconds on the device's local wall
clock (the resolver performs no timezone conversion).  Day number 0 is a
Thursday, matching the ECMAScript epoch convention, so the weekday of an
instant t is (Day(t) + 4) mod 7 with 0 = Sunday.
-/

set_option linter.unusedVariables false

namespace ClockBlocked

/-- An instant: milliseconds on the local wall clock. -/
abbrev Instant := Int

def msPerDay : Int := 86400000

/-- ECMAScript Day(t) = floor(t / msPerDay). -/
def dayNumber (t : Instant) : Int := t.fdiv msPerDay

/-- ECMAScript WeekDay(t) = (Day(t) + 4) mod 7; 0 = Sunday.  Day 0
(1970-01-01) is a Thursday. -/
def getDay (t : Instant) : Int := (dayNumber t + 4).emod 7

def startOfDay (t : Instant) : Instant := dayNumber t * msPerDay

/-- Models `d.setHours(h, m, 0, 0)` on a Date holding instant t: keep the
calendar day, replace the time of day by h:m:00.000. -/
def setHoursOfDay (t : Instant) (h m : Int) : Instant :=
  startOfDay t + h * 3600000 + m * 60000

/-- Models `d.setDate(d.getDate() + days)`: calendar-day addition. -/
def addDays (t : Instant) (days : Int) : Instant := t + days * msPerDay

/-- ECMAScript SecFromTime: seconds within the minute of t. -/
def secondsOfMinute (t : Instant) : Int := (t.fdiv 1000).emod 60

/-- An alarm as decoded by the app (services/alarmService.ts `Alarm`). -/
structure Alarm where
  id : String
  userId : String
  hours : Int
  minutes : Int
  selectedDays : List Int
  isEnabled : Bool
  createdAt : Instant
deriving DecidableEq, Repr

/--
`getNextAlarmDate` (services/notificationService.ts, lines 474-494):

  const now = new Date();
  const alarmDate = new Date();
  alarmDate.setHours(alarm.hours, alarm.minutes, 0, 0);
  for (let daysAhead = 0; daysAhead < 7; daysAhead++) {
    const checkDate = new Date(alarmDate);
    checkDate.setDate(checkDate.getDate() + daysAhead);
    const dayOfWeek = checkDate.getDay();
    if (alarm.selectedDays.includes(dayOfWeek)) {
      if (daysAhead === 0 && checkDate <= now) { continue; }
      return checkDate;
    }
  }

Note the loop has no return after it: falling off the end yields
`undefined`, modelled as `none`.
-/
def getNextAlarmDate (alarm : Alarm) (now : Instant) : Option Instant :=
  let alarmDate := setHoursOfDay now alarm.hours alarm.minutes
  (List.range 7).findSome? (fun daysAhead =>
    let checkDate := addDays alarmDate (daysAhead : Int)
    if alarm.selectedDays.contains (getDay checkDate) then
      if daysAhead = 0 ∧ checkDate ≤ now then none
      else some checkDate
    else none)

def NOTIFICATION_REPEATS : Nat := 10

/-- `getNotificationId` (notificationService.ts): "alarm-" + alarmId + "-" + index. -/
def getNotificationId (alarmId : String) (index : Nat) : String :=
  "alarm-" ++ alarmId ++ "-" ++ toString index

/--
Models `notificationDate.setSeconds(notificationDate.getSeconds() + i * 17.5)`
with REPEAT_INTERVAL_SECONDS = 17.5.  ECMAScript `setSeconds` feeds its
argument through MakeTime, which truncates it toward zero
(ToIntegerOrInfinity); the truncated value `trunc(sec + 17.5 * i)` is
computed exactly here as `(2 * sec + 35 * i) / 2` using floor division
(the operand is nonnegative, so floor = trunc). -/
def addRepeatInterval (base : Instant) (i : Nat) : Instant :=
  base - secondsOfMinute base * 1000 +
    ((2 * secondsOfMinute base + 35 * (i : Int)).fdiv 2) * 1000

/-- A reminder registered with the device notification subsystem, with the
payload fields the source attaches. -/
structure ScheduledNotification where
  identifier : String
  date : Instant
  alarmId : String
  repeatIndex : Nat
deriving DecidableEq, Repr

/--
`scheduleAlarmNotifications` (notificationService.ts, lines 502-558):
returns an empty list when the alarm is disabled or no base date can be
computed; otherwise emits up to NOTIFICATION_REPEATS reminders, skipping
any whose instant is not strictly after `now` ("Don't schedule if the
date is in the past").  `now` is the scheduling instant. -/
def scheduleAlarmNotifications (alarm : Alarm) (now : Instant) :
    List ScheduledNotification :=
  if !alarm.isEnabled then []
  else
    match getNextAlarmDate alarm now with
    | none => []
    | some baseDate =>
      (List.range NOTIFICATION_REPEATS).filterMap (fun (i : Nat) =>
        let notificationDate := addRepeatInterval baseDate i
        if notificationDate ≤ now then none
        else some { identifier := getNotificationId alarm.id i,
                    date := notificationDate,
                    alarmId := alarm.id,
                    repeatIndex := i })

/-! ## Phrase validation (AlarmVerificationModal, GenericModal.tsx lines 253-280)

Strings are processed as character lists.  The JavaScript regexes are
ASCII-faithful: `\w` is `[A-Za-z0-9_]` and `\s` is modelled by the ASCII
whitespace characters recognised by `Char.isWhitespace`. -/

/-- A `\w` character: ASCII letter, digit or underscore. -/
def isWordChar (c : Char) : Bool := c.isAlphanum || c = '_'

/-- `str.toLowerCase()` (ASCII). -/
def jsToLower (s : List Char) : List Char := s.map Char.toLower

/-- `str.trim()`: drop whitespace from both ends. -/
def jsTrim (s : List Char) : List Char :=
  ((s.dropWhile Char.isWhitespace).reverse.dropWhile Char.isWhitespace).reverse

/-- `str.replace(/[^\w\s]/g, "")`: delete every character that is neither
a word character nor whitespace. -/
def stripNonWord (s : List Char) : List Char :=
  s.filter (fun c => isWordChar c || c.isWhitespace)

/-- The `normalized` helper of `validatePhrase`:
`str.toLowerCase().trim().replace(/[^\w\s]/g, "")`. -/
def normalized (s : List Char) : List Char := stripNonWord (jsTrim (jsToLower s))

/-- Split at every whitespace character, keeping empty fields (the shape
JavaScript would produce for the regex `/\s/`, used below to build the
`/\s+/` behaviour). -/
def splitEachWs : List Char → List (List Char)
  | [] => [[]]
  | c :: rest =>
    if c.isWhitespace then [] :: splitEachWs rest
    else
      match splitEachWs rest with
      | [] => [[c]]
      | w :: ws => (c :: w) :: ws

/-- `str.split(/\s+/)`: maximal whitespace runs are separators; a leading
or trailing separator contributes one empty field, and "" yields [""]. -/
def splitWs (s : List Char) : List (List Char) :=
  if s.isEmpty then [[]]
  else
    let lead :=
      match s.head? with
      | some c => if c.isWhitespace then [([] : List Char)] else []
      | none => []
    let trail :=
      match s.getLast? with
      | some c => if c.isWhitespace then [([] : List Char)] else []
      | none => []
    lead ++ (splitEachWs s).filter (fun w => !w.isEmpty) ++ trail

/--
`validatePhrase` (GenericModal.tsx lines 253-280).  The guard
`if (!activeAlarmPhrase) return false` is a JavaScript truthiness test,
so both a null phrase and the empty string yield false.  The final
comparison `similarity >= 0.8` with
`similarity = matchedWords / targetWords.length` is computed here as the
exact rational inequality `4 * targetWords.length ≤ 5 * matchedWords`;
for the word counts reachable here the double-precision comparison in the
source agrees with the exact one (they could differ only for word counts
around 10^16). -/
def validatePhrase (activeAlarmPhrase : Option String) (input : String) : Bool :=
  match activeAlarmPhrase with
  | none => false
  | some phrase =>
    if phrase = "" then false
    else
      let target := normalized phrase.toList
      let userInput := normalized input.toList
      if target = userInput then true
      else
        let targetWords := splitWs target
        let inputWords := splitWs userInput
        let matchedWords := (targetWords.filter (fun w => inputWords.contains w)).length
        decide (4 * targetWords.length ≤ 5 * matchedWords)

/-- Formalisation of the specification's wording of phrase matching:
normalise both sides; accept on exact equality, or when at least 80% of
the target's whitespace-delimited words appear in the candidate's word
set. -/
def validateSpec (target input : String) : Bool :=
  let t := normalized target.toList
  let c := normalized input.toList
  decide (t = c) ||
    decide (4 * (splitWs t).length ≤
      5 * ((splitWs t).filter (fun w => (splitWs c).contains w)).length)

/-! ## Document store model (Firestore collections `alarms` and `alarms_sent_out`)

The store is a pair of keyed document lists.  Transient store failures
are injected through a `FailSpec`: a flag per primitive operation that
the service layer touches.  `noFail` is the failure-free store.  Service
functions mirror the source's try/catch structure: a caught error that
the source converts to `null` is modelled by returning `none`, and a
rethrown error by `Except.error`. -/

/-- A raw `alarms_sent_out` document. -/
structure ChallengeDoc where
  userId : String
  alarmId : String
  sentAt : Instant
  challengeStatus : String
  completedAt : Option Instant := none
  attemptsMade : Option Nat := none
deriving DecidableEq, Repr

/-- A raw `alarms` document; `selectedDays`, `isEnabled` and `createdAt`
may be missing (JavaScript `undefined`). -/
structure AlarmDocData where
  userId : String
  hours : Int
  minutes : Int
  selectedDays : Option (List Int) := none
  isEnabled : Option Bool := none
  createdAt : Option Instant := none
deriving DecidableEq, Repr

structure DB where
  alarms : List (String × AlarmDocData)
  alarmsSentOut : List (String × ChallengeDoc)
  nextId : Nat
deriving DecidableEq, Repr

inductive StoreErr
  | network
deriving DecidableEq, Repr

/-- Which store primitives fail transiently. -/
structure FailSpec where
  pendingQueryFails : Bool := false
  addDocFails : Bool := false
  updateDocFails : Bool := false
  alarmGetFails : Bool := false
deriving DecidableEq, Repr

def noFail : FailSpec := {}

/-- The query of `getExistingPendingChallenge`: documents matching
userId, alarmId and challengeStatus == "pending", in store order. -/
def queryPendingFor (db : DB) (userId alarmId : String) :
    List (String × ChallengeDoc) :=
  db.alarmsSentOut.filter (fun d =>
    d.2.userId == userId && d.2.alarmId == alarmId &&
      d.2.challengeStatus == "pending")

/--
`getExistingPendingChallenge` (alarmService.ts lines 299-321): returns
the first matching document's id, or null.  The catch block logs the
store error and returns null as well — a transient query failure is
indistinguishable from "no pending challenge" for the caller. -/
def getExistingPendingChallenge (db : DB) (fs : FailSpec)
    (userId alarmId : String) : Option String :=
  if fs.pendingQueryFails then none
  else
    match queryPendingFor db userId alarmId with
    | [] => none
    | d :: _ => some d.1

/-- Fresh document id produced by `addDoc`. -/
def freshDocId (db : DB) : String := "doc-" ++ toString db.nextId

/--
`logAlarmSentOut` (alarmService.ts lines 327-355): reuse an existing
pending challenge's id, otherwise create a new pending document with
sentAt = now.  Errors of the `addDoc` write are rethrown. -/
def logAlarmSentOut (db : DB) (fs : FailSpec) (userId alarmId : String)
    (now : Instant) : Except StoreErr (String × DB) :=
  match getExistingPendingChallenge db fs userId alarmId with
  | some existingId => .ok (existingId, db)
  | none =>
    if fs.addDocFails then .error .network
    else
      let docId := freshDocId db
      .ok (docId,
        { db with
          alarmsSentOut := db.alarmsSentOut ++
            [(docId, { userId := userId, alarmId := alarmId,
                       sentAt := now, challengeStatus := "pending" })],
          nextId := db.nextId + 1 })

/-- `updateDoc` on `alarms_sent_out`: set status, completedAt and
attemptsMade on the document with the given id. -/
def updateChallengeDoc (db : DB) (docId status : String) (completedAt : Instant)
    (attemptsMade : Nat) : DB :=
  { db with
    alarmsSentOut := db.alarmsSentOut.map (fun d =>
      if d.1 == docId then
        (d.1, { d.2 with challengeStatus := status,
                         completedAt := some completedAt,
                         attemptsMade := some attemptsMade })
      else d) }

def lookupDoc {α : Type} (l : List (String × α)) (docId : String) : Option α :=
  match l.find? (fun d => d.1 == docId) with
  | some d => some d.2
  | none => none

/-- The document-to-`Alarm` mapping shared verbatim by `getAlarmById`,
`getUserAlarms` and `subscribeToUserAlarms`:
`selectedDays: data.selectedDays || []`,
`isEnabled: data.isEnabled ?? true`,
`createdAt: data.createdAt?.toDate() || new Date()`. -/
def decodeAlarmDoc (docId : String) (data : AlarmDocData) (now : Instant) : Alarm :=
  { id := docId,
    userId := data.userId,
    hours := data.hours,
    minutes := data.minutes,
    selectedDays := data.selectedDays.getD [],
    isEnabled := data.isEnabled.getD true,
    createdAt := data.createdAt.getD now }

/-- `getAlarmById` (alarmService.ts lines 187-215): null when the
document does not exist; store errors are rethrown. -/
def getAlarmById (db : DB) (fs : FailSpec) (alarmId : String) (now : Instant) :
    Except StoreErr (Option Alarm) :=
  if fs.alarmGetFails then .error .network
  else .ok ((lookupDoc db.alarms alarmId).map
    (fun data => decodeAlarmDoc alarmId data now))

/-- Stable descending insertion by an integer key, modelling the
JavaScript `sort((a, b) => key(b) - key(a))` (stable since ES2019). -/
def insertDescBy {α : Type} (key : α → Instant) (x : α) : List α → List α
  | [] => [x]
  | y :: ys => if key y < key x then x :: y :: ys else y :: insertDescBy key x ys

def sortDescBy {α : Type} (key : α → Instant) (l : List α) : List α :=
  l.foldl (fun acc x => insertDescBy key x acc) []

/-- The snapshot-to-alarm-list mapping shared by `getUserAlarms` and the
`subscribeToUserAlarms` listener: decode every document owned by the
user, then sort by createdAt descending. -/
def userAlarmsFromDocs (db : DB) (userId : String) (now : Instant) : List Alarm :=
  sortDescBy (fun a => a.createdAt)
    ((db.alarms.filter (fun d => d.2.userId == userId)).map
      (fun d => decodeAlarmDoc d.1 d.2 now))

/-- `getUserAlarms` (alarmService.ts lines 106-135); store errors are
rethrown. -/
def getUserAlarms (db : DB) (fs : FailSpec) (userId : String) (now : Instant) :
    Except StoreErr (List Alarm) :=
  if fs.alarmGetFails then .error .network
  else .ok (userAlarmsFromDocs db userId now)

/-- The alarm list delivered to the callback of `subscribeToUserAlarms`
(alarmService.ts lines 254-293) for one snapshot of the store. -/
def subscribeToUserAlarmsSnapshot (db : DB) (userId : String) (now : Instant) :
    List Alarm :=
  userAlarmsFromDocs db userId now

/--
`markAlarmChallengeSuccess` (alarmService.ts lines 362-386): write the
terminal status first, then load the alarm and, when it still exists and
is enabled, schedule its next occurrence.  Store failures are rethrown.
Returns the updated store and the reminders scheduled by the single
`scheduleAlarmNotifications` call (empty when no rescheduling happens). -/
def markAlarmChallengeSuccess (db : DB) (fs : FailSpec) (sentOutId : String)
    (attemptsMade : Nat) (alarmId : String) (now : Instant) :
    Except StoreErr (DB × List ScheduledNotification) :=
  if fs.updateDocFails then .error .network
  else
    let db1 := updateChallengeDoc db sentOutId "success" now attemptsMade
    match getAlarmById db1 fs alarmId now with
    | .error e => .error e
    | .ok none => .ok (db1, [])
    | .ok (some alarm) =>
      if alarm.isEnabled then .ok (db1, scheduleAlarmNotifications alarm now)
      else .ok (db1, [])

/-- `markAlarmChallengeFailed` (alarmService.ts lines 393-417): identical
to success but writes status "failed"; called only from the timeout
handler. -/
def markAlarmChallengeFailed (db : DB) (fs : FailSpec) (sentOutId : String)
    (attemptsMade : Nat) (alarmId : String) (now : Instant) :
    Except StoreErr (DB × List ScheduledNotification) :=
  if fs.updateDocFails then .error .network
  else
    let db1 := updateChallengeDoc db sentOutId "failed" now attemptsMade
    match getAlarmById db1 fs alarmId now with
    | .error e => .error e
    | .ok none => .ok (db1, [])
    | .ok (some alarm) =>
      if alarm.isEnabled then .ok (db1, scheduleAlarmNotifications alarm now)
      else .ok (db1, [])

/-- The `AlarmSentOut` value handed to the app by
`getPendingAlarmChallenge`; `id` is the document key. -/
structure AlarmSentOut where
  id : Option String
  userId : String
  alarmId : String
  sentAt : Instant
  challengeStatus : String
  completedAt : Option Instant
  attemptsMade : Option Nat
deriving DecidableEq, Repr

def decodeSentOut (docId : String) (d : ChallengeDoc) : AlarmSentOut :=
  { id := some docId, userId := d.userId, alarmId := d.alarmId,
    sentAt := d.sentAt, challengeStatus := d.challengeStatus,
    completedAt := d.completedAt, attemptsMade := d.attemptsMade }

/--
`getPendingAlarmChallenge` (alarmService.ts lines 422-452): most recent
(largest sentAt) pending challenge of the user, or null.  As in
`getExistingPendingChallenge`, the catch block converts a store error to
null instead of propagating it. -/
def getPendingAlarmChallenge (db : DB) (fs : FailSpec) (userId : String) :
    Option AlarmSentOut :=
  if fs.pendingQueryFails then none
  else
    let docs := (db.alarmsSentOut.filter (fun d =>
      d.2.userId == userId && d.2.challengeStatus == "pending")).map
        (fun d => decodeSentOut d.1 d.2)
    match sortDescBy (fun c => c.sentAt) docs with
    | [] => none
    | d :: _ => some d

/-! ## Session state (store/useStore.ts) and session recovery (app/_layout.tsx) -/

/-- The challenge-related slice of the zustand store. -/
structure SessionState where
  activeAlarmId : Option String
  activeAlarmPhrase : Option String
  alarmStartTime : Option Instant
  sentOutId : Option String
deriving DecidableEq, Repr

/-- `setActiveAlarm` (useStore.ts lines 53-64):
`alarmStartTime: startTime || new Date()`.  A Date object is always
truthy in JavaScript, so a supplied startTime is kept and only an
omitted one defaults to now. -/
def setActiveAlarm (alarmId phrase sentOutId : String)
    (startTime : Option Instant) (now : Instant) : SessionState :=
  { activeAlarmId := some alarmId,
    activeAlarmPhrase := some phrase,
    alarmStartTime := some (startTime.getD now),
    sentOutId := some sentOutId }

/-- JavaScript truthiness of a nullable string: null and "" are falsy. -/
def jsTruthy (s : Option String) : Bool :=
  match s with
  | none => false
  | some v => v ≠ ""

/--
`checkPendingChallenge` (app/_layout.tsx lines 70-91): when a user is
known and a pending challenge with a truthy id exists, restore the modal
state via `setActiveAlarm(alarmId, freshPhrase, id, sentAt)`.  The
function only reads the store; the returned `DB` is the input store
unchanged on every path (no record is created). -/
def checkPendingChallenge (st : SessionState) (db : DB) (fs : FailSpec)
    (userUid : Option String) (freshPhrase : String) (now : Instant) :
    SessionState × DB :=
  match userUid with
  | none => (st, db)
  | some uid =>
    if uid = "" then (st, db)
    else
      match getPendingAlarmChallenge db fs uid with
      | none => (st, db)
      | some c =>
        if jsTruthy c.id then
          (setActiveAlarm c.alarmId freshPhrase (c.id.getD "") (some c.sentAt) now,
           db)
        else (st, db)

/-- The modal's 15-minute deadline (GenericModal.tsx: TIMEOUT_MS). -/
def TIMEOUT_MS : Int := 15 * 60 * 1000

/-- One tick of the countdown effect:
`remaining = Math.max(0, TIMEOUT_MS - (Date.now() - alarmStartTime))`. -/
def countdownRemaining (alarmStartTime now : Instant) : Int :=
  max 0 (TIMEOUT_MS - (now - alarmStartTime))

/-! ## The verification modal's submit handler (GenericModal.tsx lines 282-314) -/

/-- The component state of the modal that `handleSubmit` reads/writes. -/
structure ModalState where
  modeIsSpeech : Bool
  textInput : String
  transcription : String
  attempts : Nat
  errorMsg : String
deriving DecidableEq, Repr

/-- Everything observable about one `handleSubmit` run: the new modal
state, the store, the reminders scheduled by rescheduling, the alarm
whose remaining notifications were cancelled, and whether the success
alert was shown. -/
structure SubmitResult where
  modal : ModalState
  db : DB
  scheduled : List ScheduledNotification
  cancelledAlarmId : Option String
  successAlertShown : Bool
deriving DecidableEq, Repr

/--
`handleSubmit` (GenericModal.tsx lines 282-314), transcribed as written:

  const input = mode === "speech" ? transcription : textInput;
  const isValid = validatePhrase(input);
  if (true) {
    if (sentOutId && activeAlarmId) {
      try {
        await markAlarmChallengeSuccess(sentOutId, attempts + 1, activeAlarmId);
        await cancelAlarmNotifications(activeAlarmId);
      } catch (error) { console.error(...); }
    }
    Alert.alert("Success!", ...);
  } else {
    // increment attempts, show "Incorrect phrase", clear inputs
  }

The condition is the literal `true` — `isValid` is computed and then
ignored, so the else branch is dead code; it is kept here verbatim. -/
def handleSubmit (st : ModalState) (activeAlarmPhrase : Option String)
    (sentOutId activeAlarmId : Option String) (db : DB) (fs : FailSpec)
    (now : Instant) : SubmitResult :=
  let input := if st.modeIsSpeech then st.transcription else st.textInput
  let isValid := validatePhrase activeAlarmPhrase input
  if true then
    if jsTruthy sentOutId && jsTruthy activeAlarmId then
      match markAlarmChallengeSuccess db fs (sentOutId.getD "")
          (st.attempts + 1) (activeAlarmId.getD "") now with
      | .ok (db1, sched) =>
        { modal := st, db := db1, scheduled := sched,
          cancelledAlarmId := activeAlarmId, successAlertShown := true }
      | .error _ =>
        { modal := st, db := db, scheduled := [],
          cancelledAlarmId := none, successAlertShown := true }
    else
      { modal := st, db := db, scheduled := [],
        cancelledAlarmId := none, successAlertShown := true }
  else
    { modal := { st with attempts := st.attempts + 1,
                         errorMsg := "Incorrect phrase. Please try again.",
                         textInput := "", transcription := "" },
      db := db, scheduled := [], cancelledAlarmId := none,
      successAlertShown := false }

/-! ## Helper lemmas -/

lemma findSome?_const_none {α β : Type} (l : List α) :
    l.findSome? (fun _ => (none : Option β)) = none := by
  induction l with
  | nil => rfl
  | cons hd tl ih => simp [List.findSome?, ih]

lemma exists_of_findSome?_eq_some {α β : Type} {l : List α} {f : α → Option β}
    {b : β} (h : l.findSome? f = some b) : ∃ a ∈ l, f a = some b := by
  induction l with
  | nil => simp [List.findSome?] at h
  | cons hd tl ih =>
    rw [List.findSome?] at h
    cases hfa : f hd with
    | some v =>
      rw [hfa] at h
      refine ⟨hd, List.mem_cons_self _ _, ?_⟩
      rw [hfa]
      exact h
    | none =>
      rw [hfa] at h
      obtain ⟨a, ha, hfa'⟩ := ih h
      exact ⟨a, List.mem_cons_of_mem _ ha, hfa'⟩

/-- With an empty weekday set the day scan never accepts a candidate. -/
lemma getNextAlarmDate_empty_days (alarm : Alarm) (now : Instant)
    (h : alarm.selectedDays = []) : getNextAlarmDate alarm now = none := by
  unfold getNextAlarmDate
  rw [h]
  simp only [List.contains_nil, Bool.false_eq_true, if_false]
  exact findSome?_const_none _

/-- With an empty weekday set no reminders are emitted. -/
lemma schedule_empty_days (alarm : Alarm) (now : Instant)
    (h : alarm.selectedDays = []) : scheduleAlarmNotifications alarm now = [] := by
  unfold scheduleAlarmNotifications
  rw [getNextAlarmDate_empty_days alarm now h]
  cases alarm.isEnabled <;> rfl

/-- Every accepted candidate of the day scan is a whole number of local
minutes: the resolver only ever returns instants divisible by 60000 ms. -/
lemma getNextAlarmDate_dvd (alarm : Alarm) (now : Instant) (T : Instant)
    (h : getNextAlarmDate alarm now = some T) : (60000 : Int) ∣ T := by
  unfold getNextAlarmDate at h
  obtain ⟨k, _, hk⟩ := exists_of_findSome?_eq_some h
  simp only at hk
  split at hk
  · split at hk
    · exact absurd hk (by simp)
    · have hT : T = addDays (setHoursOfDay now alarm.hours alarm.minutes) (k : Int) :=
        (Option.some.injEq _ _ ▸ hk).symm
      rw [hT]
      unfold addDays setHoursOfDay startOfDay msPerDay
      refine ⟨1440 * dayNumber now + 60 * alarm.hours + alarm.minutes + 1440 * (k : Int), ?_⟩
      ring
  · exact absurd hk (by simp)

/-- On a minute-aligned base instant, the JavaScript
`setSeconds(getSeconds() + i * 17.5)` lands at
base + floor(i * 17.5) whole seconds. -/
lemma addRepeatInterval_aligned (T : Instant) (i : Nat)
    (h : (60000 : Int) ∣ T) :
    addRepeatInterval T i = T + ((35 * (i : Int)).fdiv 2) * 1000 := by
  obtain ⟨q, hq⟩ := h
  have hsec : secondsOfMinute T = 0 := by
    unfold secondsOfMinute
    subst hq
    have h1000 : (60000 : Int) * q = 1000 * (60 * q) := by ring
    rw [h1000, Int.mul_fdiv_cancel_left _ (by norm_num)]
    exact Int.mul_emod_right 60 q
  unfold addRepeatInterval
  rw [hsec]
  ring_nf

/-- Resolving a challenge only writes to `alarms_sent_out`; the `alarms`
collection is untouched. -/
lemma updateChallengeDoc_alarms (db : DB) (docId status : String)
    (completedAt : Instant) (att : Nat) :
    (updateChallengeDoc db docId status completedAt att).alarms = db.alarms := rfl

/-! ## Claim theorems -/

/--
Claim C7 (confirmed).  Phrase validation normalises both target and
candidate (case-fold, trim, strip punctuation) and accepts on exact
equality or when at least 80% of the target's whitespace-delimited words
appear in the candidate's word set: for every non-empty target the
modal's `validatePhrase` agrees with that specification
(`validateSpec`), and the three concrete examples of the specification
evaluate as stated. -/
theorem validatePhrase_spec :
    (∀ target input : String, target ≠ "" →
      validatePhrase (some target) input = validateSpec target input) ∧
    validatePhrase (some "I Am Unstoppable!") "i am unstoppable" = true ∧
    validatePhrase (some "I am unstoppable") "I am totally unstoppable today" = true ∧
    validatePhrase (some "I am unstoppable") "unstoppable" = false := by
  refine ⟨?_, by decide, by decide, by decide⟩
  intro target input ht
  simp only [validatePhrase, validateSpec]
  rw [if_neg ht]
  by_cases h : normalized target.toList = normalized input.toList
  · simp [h]
  · simp [h]

/-- Witness for C7 at a concrete non-empty target. -/
theorem validatePhrase_spec_witness :
    ("hello" : String) ≠ "" ∧
    validatePhrase (some "hello") "HELLO!" = validateSpec "hello" "HELLO!" :=
  ⟨by decide, validatePhrase_spec.1 "hello" "HELLO!" (by decide)⟩

/--
Claim C9 (confirmed).  For every alarm whose selected-weekday set is
empty, the Time Resolver returns none and `scheduleAlarmNotifications`
returns an empty reminder list without error; the same empty list is
returned when the alarm is disabled. -/
theorem empty_days_unschedulable (alarm : Alarm) (now : Instant) :
    (alarm.selectedDays = [] →
      getNextAlarmDate alarm now = none ∧
      scheduleAlarmNotifications alarm now = []) ∧
    (alarm.isEnabled = false → scheduleAlarmNotifications alarm now = []) := by
  refine ⟨fun h => ⟨getNextAlarmDate_empty_days alarm now h,
                    schedule_empty_days alarm now h⟩, fun h => ?_⟩
  unfold scheduleAlarmNotifications
  rw [h]
  rfl

/-- Witness for C9: an alarm with no selected weekdays, and a disabled
alarm, both yield no reminders. -/
theorem empty_days_unschedulable_witness :
    (getNextAlarmDate
        { id := "a", userId := "u", hours := 8, minutes := 0,
          selectedDays := [], isEnabled := true, createdAt := 0 } 0 = none ∧
      scheduleAlarmNotifications
        { id := "a", userId := "u", hours := 8, minutes := 0,
          selectedDays := [], isEnabled := true, createdAt := 0 } 0 = []) ∧
    scheduleAlarmNotifications
        { id := "b", userId := "u", hours := 8, minutes := 0,
          selectedDays := [1], isEnabled := false, createdAt := 0 } 0 = [] :=
  ⟨(empty_days_unschedulable _ 0).1 rfl, (empty_days_unschedulable _ 0).2 rfl⟩

/--
Claim C10 (confirmed).  The alarm-document decoding shared by
`getAlarmById`, `getUserAlarms` and `subscribeToUserAlarms` silently
defaults malformed documents instead of raising a decode error: a
document missing `selectedDays` decodes with `selectedDays = []` (so the
Time Resolver treats it as unschedulable), and one missing `isEnabled`
decodes with `isEnabled = true`; such documents flow through all three
read paths as decoded values, never as errors. -/
theorem alarm_decoder_defaults (docId : String) (d : AlarmDocData) (db : DB)
    (now t : Instant)
    (hdays : d.selectedDays = none) (hen : d.isEnabled = none) :
    (decodeAlarmDoc docId d now).selectedDays = [] ∧
    (decodeAlarmDoc docId d now).isEnabled = true ∧
    getNextAlarmDate (decodeAlarmDoc docId d now) t = none ∧
    (lookupDoc db.alarms docId = some d →
      getAlarmById db noFail docId now = .ok (some (decodeAlarmDoc docId d now))) ∧
    (db.alarms = [(docId, d)] →
      getUserAlarms db noFail d.userId now = .ok [decodeAlarmDoc docId d now] ∧
      subscribeToUserAlarmsSnapshot db d.userId now = [decodeAlarmDoc docId d now]) := by
  have h1 : (decodeAlarmDoc docId d now).selectedDays = [] := by
    simp [decodeAlarmDoc, hdays]
  have h2 : (decodeAlarmDoc docId d now).isEnabled = true := by
    simp [decodeAlarmDoc, hen]
  refine ⟨h1, h2, getNextAlarmDate_empty_days _ _ h1, fun hl => ?_, fun hdb => ?_⟩
  · simp [getAlarmById, noFail, hl]
  · have : userAlarmsFromDocs db d.userId now = [decodeAlarmDoc docId d now] := by
      simp [userAlarmsFromDocs, hdb, sortDescBy, insertDescBy]
    exact ⟨by simp [getUserAlarms, noFail, this], this⟩

/-- Witness for C10: a store holding one document with both fields
missing. -/
theorem alarm_decoder_defaults_witness :
    (decodeAlarmDoc "a1"
        { userId := "u", hours := 7, minutes := 30 } 0).selectedDays = [] ∧
    (decodeAlarmDoc "a1"
        { userId := "u", hours := 7, minutes := 30 } 0).isEnabled = true ∧
    getNextAlarmDate
      (decodeAlarmDoc "a1" { userId := "u", hours := 7, minutes := 30 } 0) 5 = none ∧
    (lookupDoc (DB.mk [("a1", { userId := "u", hours := 7, minutes := 30 })] [] 0).alarms
        "a1" = some { userId := "u", hours := 7, minutes := 30 } →
      getAlarmById (DB.mk [("a1", { userId := "u", hours := 7, minutes := 30 })] [] 0)
          noFail "a1" 0 =
        .ok (some (decodeAlarmDoc "a1" { userId := "u", hours := 7, minutes := 30 } 0))) ∧
    ((DB.mk [("a1", { userId := "u", hours := 7, minutes := 30 })] [] 0).alarms =
        [("a1", { userId := "u", hours := 7, minutes := 30 })] →
      getUserAlarms (DB.mk [("a1", { userId := "u", hours := 7, minutes := 30 })] [] 0)
          noFail "u" 0 =
        .ok [decodeAlarmDoc "a1" { userId := "u", hours := 7, minutes := 30 } 0] ∧
      subscribeToUserAlarmsSnapshot
          (DB.mk [("a1", { userId := "u", hours := 7, minutes := 30 })] [] 0) "u" 0 =
        [decodeAlarmDoc "a1" { userId := "u", hours := 7, minutes := 30 } 0]) :=
  alarm_decoder_defaults "a1" { userId := "u", hours := 7, minutes := 30 }
    (DB.mk [("a1", { userId := "u", hours := 7, minutes := 30 })] [] 0) 0 5 rfl rfl

/-- The C2 scenario's alarm: 08:00 with only Monday (day 1) selected. -/
def mondayAlarm : Alarm :=
  { id := "a1", userId := "u", hours := 8, minutes := 0,
    selectedDays := [1], isEnabled := true, createdAt := 0 }

/-- The C2 scenario's call time: Monday 1970-01-05 (local day number 4,
a Monday) at 08:05:00.000. -/
def mondayNow : Instant := 4 * 86400000 + 8 * 3600000 + 5 * 60000

/--
Claim C2 (code bug).  The claim says the Time Resolver always returns an
instant within 7 days and strictly in the future for a non-empty weekday
set, and that the Monday-08:05 scenario resolves to the following Monday
08:00.  The code's scan runs `daysAhead = 0..6` only, and the
`daysAhead === 0` candidate is rejected because its time has passed, so
the following Monday (7 days ahead) is never examined: the function
falls off the loop and returns no date at all, and the scheduler then
emits no reminders.  The last two conjuncts pin the input down: the call
instant really is a Monday, five minutes after the alarm instant. -/
theorem nextAlarmDate_monday_bug :
    getNextAlarmDate mondayAlarm mondayNow = none ∧
    scheduleAlarmNotifications mondayAlarm mondayNow = [] ∧
    getDay mondayNow = 1 ∧
    mondayNow = setHoursOfDay mondayNow mondayAlarm.hours mondayAlarm.minutes +
      5 * 60000 := by
  decide

/-- The C5 scenario's alarm: 09:00 with only Monday selected. -/
def alarmC5 : Alarm :=
  { id := "a1", userId := "u", hours := 9, minutes := 0,
    selectedDays := [1], isEnabled := true, createdAt := 0 }

/-- The C5 scenario's scheduling time: Monday 1970-01-05 at 08:00, one
hour before the base instant T = 378000000 (Monday 09:00). -/
def nowC5 : Instant := 4 * 86400000 + 8 * 3600000

/--
Counterexample to claim C5 as stated.  The claim puts reminder i at
T + i * 17.5 s.  For the concrete alarm below the base instant is
T = 378000000 and all ten reminders are scheduled, but reminder 1 is at
T + 17000 ms — not at T + 17500 ms — because JavaScript `setSeconds`
truncates the fractional seconds argument.  The odd-indexed offsets are
17 s, 52 s, 87 s, 122 s and 157 s instead of 17.5 s, 52.5 s, 87.5 s,
122.5 s and 157.5 s. -/
theorem schedule_interval_truncation_cex :
    getNextAlarmDate alarmC5 nowC5 = some 378000000 ∧
    (scheduleAlarmNotifications alarmC5 nowC5).map (fun n => n.date) =
      [378000000, 378017000, 378035000, 378052000, 378070000,
       378087000, 378105000, 378122000, 378140000, 378157000] ∧
    ¬ (scheduleAlarmNotifications alarmC5 nowC5).map (fun n => n.date) =
      [378000000, 378017500, 378035000, 378052500, 378070000,
       378087500, 378105000, 378122500, 378140000, 378157500] := by
  decide

/--
Claim C5 as amended (proved).  For every enabled alarm whose base
instant resolves to T, `scheduleAlarmNotifications` emits at most 10
reminders; reminder i sits at T + floor(i * 17.5) whole seconds (the
fractional half-second is truncated by `setSeconds`), every computed
instant not strictly after the scheduling time is skipped without error,
and reminder i carries the identifier `alarm-<alarmId>-<i>` determined
purely by the alarm id and the index. -/
theorem schedule_burst_amended (alarm : Alarm) (now T : Instant)
    (hen : alarm.isEnabled = true)
    (hbase : getNextAlarmDate alarm now = some T) :
    scheduleAlarmNotifications alarm now =
      (List.range NOTIFICATION_REPEATS).filterMap (fun (i : Nat) =>
        let d := T + ((35 * (i : Int)).fdiv 2) * 1000
        if d ≤ now then none
        else some { identifier := "alarm-" ++ alarm.id ++ "-" ++ toString i,
                    date := d, alarmId := alarm.id, repeatIndex := i }) ∧
    (scheduleAlarmNotifications alarm now).length ≤ NOTIFICATION_REPEATS := by
  have hdvd : (60000 : Int) ∣ T := getNextAlarmDate_dvd alarm now T hbase
  have hmain : scheduleAlarmNotifications alarm now =
      (List.range NOTIFICATION_REPEATS).filterMap (fun (i : Nat) =>
        let d := T + ((35 * (i : Int)).fdiv 2) * 1000
        if d ≤ now then none
        else some { identifier := "alarm-" ++ alarm.id ++ "-" ++ toString i,
                    date := d, alarmId := alarm.id, repeatIndex := i }) := by
    unfold scheduleAlarmNotifications
    rw [hen, hbase]
    simp only [Bool.not_true, Bool.false_eq_true, if_false]
    apply List.filterMap_congr
    intro i _
    rw [addRepeatInterval_aligned T i hdvd]
    rfl
  refine ⟨hmain, ?_⟩
  rw [hmain]
  calc ((List.range NOTIFICATION_REPEATS).filterMap _).length
      ≤ (List.range NOTIFICATION_REPEATS).length := List.length_filterMap_le _ _
    _ = NOTIFICATION_REPEATS := List.length_range _

/-- Witness for C5's amended claim at the concrete C5 scenario. -/
theorem schedule_burst_amended_witness :
    (scheduleAlarmNotifications alarmC5 nowC5 =
      (List.range NOTIFICATION_REPEATS).filterMap (fun (i : Nat) =>
        let d := (378000000 : Int) + ((35 * (i : Int)).fdiv 2) * 1000
        if d ≤ nowC5 then none
        else some { identifier := "alarm-" ++ alarmC5.id ++ "-" ++ toString i,
                    date := d, alarmId := alarmC5.id, repeatIndex := i }) ∧
      (scheduleAlarmNotifications alarmC5 nowC5).length ≤ NOTIFICATION_REPEATS) :=
  schedule_burst_amended alarmC5 nowC5 378000000 rfl (by decide)

/--
Claim C3 (confirmed).  `logAlarmSentOut` is idempotent: starting from a
store satisfying the at-most-one-pending invariant for the (user, alarm)
pair, two calls in sequence with no intervening resolution return the
same challenge identifier, the second call leaves the store unchanged,
exactly one pending record for the pair remains, and a new record is
created only when no pending record existed. -/
theorem logAlarmSentOut_idempotent (db : DB) (u a : String) (n1 n2 : Instant)
    (cid : String) (db1 : DB)
    (hinv : (queryPendingFor db u a).length ≤ 1)
    (h1 : logAlarmSentOut db noFail u a n1 = .ok (cid, db1)) :
    logAlarmSentOut db1 noFail u a n2 = .ok (cid, db1) ∧
    (queryPendingFor db1 u a).length = 1 ∧
    (queryPendingFor db u a ≠ [] → db1 = db) := by
  cases hq : queryPendingFor db u a with
  | nil =>
    have hex : getExistingPendingChallenge db noFail u a = none := by
      simp [getExistingPendingChallenge, noFail, hq]
    rw [logAlarmSentOut, hex] at h1
    simp only [noFail, Bool.false_eq_true, if_false, Except.ok.injEq,
      Prod.mk.injEq] at h1
    obtain ⟨hcid, hdb1⟩ := h1
    have hq1 : queryPendingFor db1 u a =
        [(cid, { userId := u, alarmId := a, sentAt := n1,
                 challengeStatus := "pending" })] := by
      rw [← hdb1, ← hcid]
      simp only [queryPendingFor] at hq ⊢
      simp [List.filter_append, hq]
    have hex1 : getExistingPendingChallenge db1 noFail u a = some cid := by
      simp [getExistingPendingChallenge, noFail, hq1]
    refine ⟨by rw [logAlarmSentOut, hex1], by rw [hq1]; rfl, fun hne => ?_⟩
    exact absurd rfl hne
  | cons x xs =>
    have hxs : xs = [] := by
      rw [hq, List.length_cons] at hinv
      exact List.length_eq_zero.mp (by omega)
    subst hxs
    have hex : getExistingPendingChallenge db noFail u a = some x.1 := by
      simp [getExistingPendingChallenge, noFail, hq]
    rw [logAlarmSentOut, hex] at h1
    simp only [Except.ok.injEq, Prod.mk.injEq] at h1
    obtain ⟨hcid, hdb1⟩ := h1
    have hex1 : getExistingPendingChallenge db1 noFail u a = some cid := by
      rw [← hdb1]
      simp [getExistingPendingChallenge, noFail, hq, hcid]
    refine ⟨by rw [logAlarmSentOut, hex1], ?_, fun _ => hdb1.symm⟩
    rw [← hdb1, hq]
    rfl

/-- Witness for C3: an empty store; the first call creates "doc-0" and
the second call returns the same identifier on the unchanged store. -/
theorem logAlarmSentOut_idempotent_witness :
    logAlarmSentOut
        (DB.mk []
          [("doc-0", { userId := "u", alarmId := "a", sentAt := 3,
                       challengeStatus := "pending" })] 1)
        noFail "u" "a" 9 =
      .ok ("doc-0",
        DB.mk []
          [("doc-0", { userId := "u", alarmId := "a", sentAt := 3,
                       challengeStatus := "pending" })] 1) ∧
    (queryPendingFor
        (DB.mk []
          [("doc-0", { userId := "u", alarmId := "a", sentAt := 3,
                       challengeStatus := "pending" })] 1) "u" "a").length = 1 ∧
    (queryPendingFor (DB.mk [] [] 0) "u" "a" ≠ [] →
      DB.mk []
          [("doc-0", { userId := "u", alarmId := "a", sentAt := 3,
                       challengeStatus := "pending" })] 1 =
        DB.mk [] [] 0) :=
  logAlarmSentOut_idempotent (DB.mk [] [] 0) "u" "a" 3 9 "doc-0"
    (DB.mk []
      [("doc-0", { userId := "u", alarmId := "a", sentAt := 3,
                   challengeStatus := "pending" })] 1)
    (by decide) (by rfl)

/--
Claim C6 (confirmed).  For both terminal resolutions (success and
failure), the handler writes the terminal status and then loads the
alarm by id: when the alarm document is gone, or present but disabled,
no scheduling happens and no error is raised while the status write
still completes; when the alarm is present and enabled, the result
carries exactly one `scheduleAlarmNotifications` invocation's reminders,
computed from the resolution time `now`. -/
theorem challenge_resolution_reschedule (db : DB) (sid : String) (att : Nat)
    (aid : String) (now : Instant) :
    (lookupDoc db.alarms aid = none →
      markAlarmChallengeSuccess db noFail sid att aid now =
        .ok (updateChallengeDoc db sid "success" now att, []) ∧
      markAlarmChallengeFailed db noFail sid att aid now =
        .ok (updateChallengeDoc db sid "failed" now att, [])) ∧
    (∀ data, lookupDoc db.alarms aid = some data →
      (decodeAlarmDoc aid data now).isEnabled = false →
      markAlarmChallengeSuccess db noFail sid att aid now =
        .ok (updateChallengeDoc db sid "success" now att, []) ∧
      markAlarmChallengeFailed db noFail sid att aid now =
        .ok (updateChallengeDoc db sid "failed" now att, [])) ∧
    (∀ data, lookupDoc db.alarms aid = some data →
      (decodeAlarmDoc aid data now).isEnabled = true →
      markAlarmChallengeSuccess db noFail sid att aid now =
        .ok (updateChallengeDoc db sid "success" now att,
             scheduleAlarmNotifications (decodeAlarmDoc aid data now) now) ∧
      markAlarmChallengeFailed db noFail sid att aid now =
        .ok (updateChallengeDoc db sid "failed" now att,
             scheduleAlarmNotifications (decodeAlarmDoc aid data now) now)) := by
  refine ⟨fun h => ?_, fun data h hdis => ?_, fun data h hen => ?_⟩ <;>
    constructor <;>
      simp [markAlarmChallengeSuccess, markAlarmChallengeFailed, getAlarmById,
        noFail, updateChallengeDoc_alarms, h, *]

/-- Witness for C6: resolving against a store whose `alarms` collection
is empty reschedules nothing and still records the terminal status. -/
theorem challenge_resolution_reschedule_witness :
    lookupDoc (DB.mk []
        [("c1", { userId := "u", alarmId := "a1", sentAt := 0,
                  challengeStatus := "pending" })] 0).alarms "a1" = none ∧
    markAlarmChallengeSuccess
        (DB.mk []
          [("c1", { userId := "u", alarmId := "a1", sentAt := 0,
                    challengeStatus := "pending" })] 0)
        noFail "c1" 2 "a1" 77 =
      .ok (updateChallengeDoc
            (DB.mk []
              [("c1", { userId := "u", alarmId := "a1", sentAt := 0,
                        challengeStatus := "pending" })] 0)
            "c1" "success" 77 2, []) ∧
    markAlarmChallengeFailed
        (DB.mk []
          [("c1", { userId := "u", alarmId := "a1", sentAt := 0,
                    challengeStatus := "pending" })] 0)
        noFail "c1" 2 "a1" 77 =
      .ok (updateChallengeDoc
            (DB.mk []
              [("c1", { userId := "u", alarmId := "a1", sentAt := 0,
                        challengeStatus := "pending" })] 0)
            "c1" "failed" 77 2, []) :=
  ⟨rfl,
   ((challenge_resolution_reschedule
      (DB.mk []
        [("c1", { userId := "u", alarmId := "a1", sentAt := 0,
                  challengeStatus := "pending" })] 0)
      "c1" 2 "a1" 77).1 rfl).1,
   ((challenge_resolution_reschedule
      (DB.mk []
        [("c1", { userId := "u", alarmId := "a1", sentAt := 0,
                  challengeStatus := "pending" })] 0)
      "c1" 2 "a1" 77).1 rfl).2⟩

/-- A store holding one pending challenge for ("u", "a1"), used to show
what the lookups report when the underlying query fails. -/
def dbC4 : DB :=
  { alarms := [],
    alarmsSentOut := [("c1", { userId := "u", alarmId := "a1", sentAt := 0,
                               challengeStatus := "pending" })],
    nextId := 0 }

/--
Counterexample to claim C4 as stated.  The claim says every Challenge
Tracker query propagates a transient store failure to the caller.  In
the source both pending-challenge lookups wrap the query in a catch
block that returns null: on a failing store they report `none`, exactly
what they report for a store with no pending challenge — the error never
reaches the caller.  The first two conjuncts show the record is really
there when the store works; the last two show the failing store is
silently mapped to "no pending challenge". -/
theorem pending_lookup_swallows_error_cex :
    getExistingPendingChallenge dbC4 noFail "u" "a1" = some "c1" ∧
    getPendingAlarmChallenge dbC4 noFail "u" =
      some (decodeSentOut "c1" { userId := "u", alarmId := "a1", sentAt := 0,
                                 challengeStatus := "pending" }) ∧
    getExistingPendingChallenge dbC4 { pendingQueryFails := true } "u" "a1" = none ∧
    getPendingAlarmChallenge dbC4 { pendingQueryFails := true } "u" = none := by
  decide

/--
Claim C4 as amended (proved).  Store failures on the Challenge Tracker's
writes are propagated unchanged and without retry: the create inside
`logAlarmSentOut` (when no pending record exists) and the resolution
updates of `markAlarmChallengeSuccess` / `markAlarmChallengeFailed`
re-raise the store error.  The pending-challenge lookups
(`getExistingPendingChallenge`, `getPendingAlarmChallenge`), however,
catch a failing query and return none, as if no pending challenge
existed. -/
theorem store_failure_propagation_amended (db : DB) (u a sid : String)
    (att : Nat) (now : Instant)
    (hnone : queryPendingFor db u a = []) :
    logAlarmSentOut db { addDocFails := true } u a now = .error .network ∧
    markAlarmChallengeSuccess db { updateDocFails := true } sid att a now =
      .error .network ∧
    markAlarmChallengeFailed db { updateDocFails := true } sid att a now =
      .error .network ∧
    getExistingPendingChallenge db { pendingQueryFails := true } u a = none ∧
    getPendingAlarmChallenge db { pendingQueryFails := true } u = none := by
  refine ⟨?_, by simp [markAlarmChallengeSuccess],
    by simp [markAlarmChallengeFailed],
    by simp [getExistingPendingChallenge],
    by simp [getPendingAlarmChallenge]⟩
  have hex : getExistingPendingChallenge db { addDocFails := true } u a = none := by
    simp [getExistingPendingChallenge, hnone]
  rw [logAlarmSentOut, hex]
  rfl

/-- Witness for C4's amended claim on an empty store. -/
theorem store_failure_propagation_amended_witness :
    logAlarmSentOut (DB.mk [] [] 0) { addDocFails := true } "u" "a" 0 =
      .error .network ∧
    markAlarmChallengeSuccess (DB.mk [] [] 0) { updateDocFails := true }
      "c1" 1 "a" 0 = .error .network ∧
    markAlarmChallengeFailed (DB.mk [] [] 0) { updateDocFails := true }
      "c1" 1 "a" 0 = .error .network ∧
    getExistingPendingChallenge (DB.mk [] [] 0) { pendingQueryFails := true }
      "u" "a" = none ∧
    getPendingAlarmChallenge (DB.mk [] [] 0) { pendingQueryFails := true }
      "u" = none :=
  store_failure_propagation_amended (DB.mk [] [] 0) "u" "a" "c1" 1 0 rfl

/--
Claim C8 (confirmed).  Session Recovery with a pending challenge for the
user restores the modal state from that challenge's alarm identifier and
document identifier with the freshly generated phrase, performs no store
write (the store component of the result is the input store), and sets
the countdown origin to the challenge's original sentAt; when sentAt is
10 minutes before the restart instant, the countdown tick computes
5 minutes remaining of the 15-minute window, not 15. -/
theorem session_recovery_restores (st : SessionState) (db : DB)
    (uid phrase cid : String) (c : ChallengeDoc) (now : Instant)
    (huid : uid ≠ "")
    (hpend : db.alarmsSentOut.filter (fun d =>
        d.2.userId == uid && d.2.challengeStatus == "pending") = [(cid, c)])
    (hcid : cid ≠ "") :
    checkPendingChallenge st db noFail (some uid) phrase now =
      ({ activeAlarmId := some c.alarmId,
         activeAlarmPhrase := some phrase,
         alarmStartTime := some c.sentAt,
         sentOutId := some cid }, db) ∧
    (c.sentAt = now - 10 * 60000 →
      countdownRemaining c.sentAt now = 5 * 60000) := by
  have hget : getPendingAlarmChallenge db noFail uid = some (decodeSentOut cid c) := by
    simp [getPendingAlarmChallenge, noFail, hpend, sortDescBy, insertDescBy]
  constructor
  · simp [checkPendingChallenge, huid, hget, decodeSentOut, jsTruthy, hcid,
      setActiveAlarm]
  · intro h
    rw [h]
    simp only [countdownRemaining, TIMEOUT_MS]
    omega

/-- Witness for C8: one pending challenge sent 10 minutes (600000 ms)
before the restart instant 900000. -/
theorem session_recovery_restores_witness :
    checkPendingChallenge (SessionState.mk none none none none)
        (DB.mk []
          [("c1", { userId := "u", alarmId := "a1", sentAt := 300000,
                    challengeStatus := "pending" })] 0)
        noFail (some "u") "fresh phrase" 900000 =
      ({ activeAlarmId := some "a1",
         activeAlarmPhrase := some "fresh phrase",
         alarmStartTime := some 300000,
         sentOutId := some "c1" },
       DB.mk []
          [("c1", { userId := "u", alarmId := "a1", sentAt := 300000,
                    challengeStatus := "pending" })] 0) ∧
    countdownRemaining 300000 900000 = 5 * 60000 := by
  have h := session_recovery_restores (SessionState.mk none none none none)
    (DB.mk []
      [("c1", { userId := "u", alarmId := "a1", sentAt := 300000,
                challengeStatus := "pending" })] 0)
    "u" "fresh phrase" "c1"
    { userId := "u", alarmId := "a1", sentAt := 300000,
      challengeStatus := "pending" }
    900000 (by decide) (by decide) (by decide)
  exact ⟨h.1, h.2 (by decide)⟩

/-- The store for the C1 scenario: one pending challenge "c1" for alarm
"a1"; the alarm document is present but disabled, so resolution
reschedules nothing. -/
def dbC1 : DB :=
  { alarms := [("a1", { userId := "u", hours := 8, minutes := 0,
                        selectedDays := some [1], isEnabled := some false,
                        createdAt := some 0 })],
    alarmsSentOut := [("c1", { userId := "u", alarmId := "a1", sentAt := 0,
                               challengeStatus := "pending" })],
    nextId := 0 }

/-- The modal state for the C1 scenario: text mode with an empty
submission, no attempts yet. -/
def stC1 : ModalState :=
  { modeIsSpeech := false, textInput := "", transcription := "",
    attempts := 0, errorMsg := "" }

/--
Claim C1 (code bug).  The claim — and the component's own header
comment — say an invalid submission performs no store write, increments
the local attempt counter and re-prompts, while only a validated
submission resolves the challenge to success.  The source's
`handleSubmit` branches on the literal `true` instead of on `isValid`
(GenericModal.tsx line 287), so the submission below, whose input fails
phrase validation, still writes `challengeStatus: "success"` (with
`attemptsMade = 1`) to the store, shows the success alert, and leaves
the modal state untouched: the attempt counter is never incremented and
the incorrect-phrase prompt is dead code. -/
theorem submit_always_success_bug :
    validatePhrase (some "I am unstoppable") "" = false ∧
    (handleSubmit stC1 (some "I am unstoppable") (some "c1") (some "a1")
        dbC1 noFail 1000).successAlertShown = true ∧
    (handleSubmit stC1 (some "I am unstoppable") (some "c1") (some "a1")
        dbC1 noFail 1000).modal = stC1 ∧
    lookupDoc (handleSubmit stC1 (some "I am unstoppable") (some "c1") (some "a1")
        dbC1 noFail 1000).db.alarmsSentOut "c1" =
      some { userId := "u", alarmId := "a1", sentAt := 0,
             challengeStatus := "success", completedAt := some 1000,
             attemptsMade := some 1 } := by
  decide

end ClockBlocked
